import Mathlib

/-!
Verification of the gridscale server reconciliation logic.

The definitions below are a shallow embedding of the server resource
handlers (`resourceGridscaleServerCreate` / `resourceGridscaleServerUpdate`
/ `resourceGridscaleServerDelete`): pure functions from the observed and
desired configurations to the ordered list of remote operations the code
issues. Terraform's `d.HasChange(f)` is modelled as inequality of the old
and new value of the field `f`; `d.GetChange(f)` as the pair of old and new
values; an unset optional string field is the empty string, exactly as in
the schema layer. The external client is modelled as an oracle environment
for the create path, where claims depend on call results.
-/

namespace Gridscale

/-- One storage relation as the resource handlers read it: the object UUID
and the `bootdevice` flag. -/
structure Storage where
  objectUUID : String
  bootdevice : Bool
deriving DecidableEq

/-- One network relation as the resource handlers read it. -/
structure Network where
  objectUUID : String
  bootdevice : Bool
deriving DecidableEq

/-- The fields of the server resource the create/update handlers read.
A single record serves both as observed state (old values) and desired
state (new values); `legacy` is the computed observed flag read by
`d.Get("legacy")` during update. -/
structure ServerConfig where
  name : String
  cores : Nat
  memory : Nat
  locationUUID : String
  hardwareProfile : String
  availabilityZone : String
  labels : List String
  storages : List Storage
  networks : List Network
  ipv4 : String
  ipv6 : String
  isoimage : String
  power : Bool
  legacy : Bool
deriving DecidableEq

/-- One remote mutation issued by the update handler, in the order the
code issues it. `UpdateAttributes` carries the `ServerUpdateRequest`
fields; the link/unlink variants carry the arguments of the
corresponding client call. -/
inductive Op where
  | Shutdown
  | Start
  | UpdateAttributes (name zone : String) (labels : List String) (cores memory : Nat)
  | UnlinkIsoImage (id : String)
  | LinkIsoImage (id : String)
  | UnlinkIP (id : String)
  | LinkIP (id : String)
  | UnlinkNetwork (id : String)
  | LinkNetwork (id : String) (bootdevice : Bool)
  | UnlinkStorage (id : String)
  | LinkStorage (id : String) (bootdevice : Bool)
deriving DecidableEq

/-- The `shutdownRequired` computation of `resourceGridscaleServerUpdate`
(lines 594-614): a cores change that is a decrease or on a legacy system,
a memory change that is a decrease or on a legacy system, or any change
to ipv4, ipv6, storage or network. -/
def shutdownRequired (old new : ServerConfig) : Bool :=
  (decide (old.cores ≠ new.cores) && (decide (new.cores < old.cores) || old.legacy)) ||
  (decide (old.memory ≠ new.memory) && (decide (new.memory < old.memory) || old.legacy)) ||
  decide (old.ipv4 ≠ new.ipv4) || decide (old.ipv6 ≠ new.ipv6) ||
  decide (old.storages ≠ new.storages) || decide (old.networks ≠ new.networks)

/-- The leading conditional `ShutdownServer` call (lines 624-630). -/
def shutdownOps (old new : ServerConfig) : List Op :=
  if shutdownRequired old new then [Op.Shutdown] else []

/-- The unconditional `UpdateServer` call with the `ServerUpdateRequest`
body (lines 616-636). -/
def attrOp (new : ServerConfig) : Op :=
  Op.UpdateAttributes new.name new.availabilityZone new.labels new.cores new.memory

/-- The iso-image block (lines 638-649). Note the source calls
`UnlinkIsoImage` in both branches: with the old image id when the new
image is empty, and with the NEW image id otherwise. -/
def isoOps (old new : ServerConfig) : List Op :=
  if old.isoimage ≠ new.isoimage then
    if new.isoimage = "" then [Op.UnlinkIsoImage old.isoimage]
    else [Op.UnlinkIsoImage new.isoimage]
  else []

/-- One IP family's link/unlink block (lines 653-666 for v4, 667-680 for
v6): on a change, unlink the old address when the new one is empty,
otherwise link the new address (the old one is not unlinked). -/
def ipFamilyOps (oldIp newIp : String) : List Op :=
  if oldIp ≠ newIp then
    if newIp = "" then [Op.UnlinkIP oldIp] else [Op.LinkIP newIp]
  else []

/-- Both IP families, v4 first, as the code orders them. -/
def ipOps (old new : ServerConfig) : List Op :=
  ipFamilyOps old.ipv4 new.ipv4 ++ ipFamilyOps old.ipv6 new.ipv6

/-- The `needsPublicNetwork` flag (lines 652, 663-665, 677-679): starts
true, cleared when a changed family previously had a non-empty address. -/
def needsPublicNetwork (old new : ServerConfig) : Bool :=
  !((decide (old.ipv4 ≠ new.ipv4) && decide (old.ipv4 ≠ "")) ||
    (decide (old.ipv6 ≠ new.ipv6) && decide (old.ipv6 ≠ "")))

/-- The public-network auto management (lines 681-702): unlink the public
network when some family changed and both new addresses are empty; link
it (with `bootdevice = false`) when some family changed and
`needsPublicNetwork` is still set. `pub` is the UUID returned by
`GetNetworkPublic`. -/
def publicNetOps (pub : String) (old new : ServerConfig) : List Op :=
  (if (old.ipv6 ≠ new.ipv6 ∨ old.ipv4 ≠ new.ipv4) ∧ new.ipv6 = "" ∧ new.ipv4 = ""
   then [Op.UnlinkNetwork pub] else []) ++
  (if (old.ipv6 ≠ new.ipv6 ∨ old.ipv4 ≠ new.ipv4) ∧ needsPublicNetwork old new = true
   then [Op.LinkNetwork pub false] else [])

/-- The network block (lines 704-727): on any change to the network set,
unlink every old network and link every new network (those with a
non-empty UUID), rather than only the changed ones. -/
def networkOps (old new : ServerConfig) : List Op :=
  if old.networks ≠ new.networks then
    (old.networks.filter (fun n => n.objectUUID ≠ "")).map
      (fun n => Op.UnlinkNetwork n.objectUUID) ++
    (new.networks.filter (fun n => n.objectUUID ≠ "")).map
      (fun n => Op.LinkNetwork n.objectUUID n.bootdevice)
  else []

/-- The storage block (lines 729-770): on any change to the storage set,
unlink each old storage whose UUID is absent from the new set, then link
each new storage whose UUID is absent from the old set. -/
def storageOps (old new : ServerConfig) : List Op :=
  if old.storages ≠ new.storages then
    (old.storages.filter
      (fun s => !(new.storages.any (fun t => t.objectUUID = s.objectUUID)))).map
      (fun s => Op.UnlinkStorage s.objectUUID) ++
    (new.storages.filter
      (fun s => !(old.storages.any (fun t => t.objectUUID = s.objectUUID)))).map
      (fun s => Op.LinkStorage s.objectUUID s.bootdevice)
  else []

/-- The trailing power-state reconciliation (lines 772-781): always
issued, `StartServer` when the desired power is on, else
`ShutdownServer`. -/
def powerOps (new : ServerConfig) : List Op :=
  [if new.power then Op.Start else Op.Shutdown]

/-- The full ordered operation sequence of
`resourceGridscaleServerUpdate`: conditional shutdown, attribute update,
iso block, IP blocks, public network management, network block, storage
block, trailing power-state call. -/
def buildUpdatePlan (pub : String) (old new : ServerConfig) : List Op :=
  shutdownOps old new ++ [attrOp new] ++ isoOps old new ++ ipOps old new ++
  publicNetOps pub old new ++ networkOps old new ++ storageOps old new ++ powerOps new

/-- The hardware-profile constants of the client library, as selected by
the if/else chain of `resourceGridscaleServerCreate` (lines 450-473). -/
inductive HWProfile where
  | legacyHW
  | nestedHW
  | ciscoCSR
  | sophosUTM
  | f5Bigip
  | q35
  | q35Nested
  | defaultHW
deriving DecidableEq

/-- The profile-string dispatch of the create handler (lines 450-473). -/
def hardwareProfileOf (profile : String) : HWProfile :=
  if profile = "legacy" then HWProfile.legacyHW
  else if profile = "nested" then HWProfile.nestedHW
  else if profile = "cisco_csr" then HWProfile.ciscoCSR
  else if profile = "sophos_utm" then HWProfile.sophosUTM
  else if profile = "f5_bigip" then HWProfile.f5Bigip
  else if profile = "q35" then HWProfile.q35
  else if profile = "q35_nested" then HWProfile.q35Nested
  else HWProfile.defaultHW

/-- The `ServerCreateRequest` body assembled by the create handler
(lines 441-544): attributes, the iso image if set, ONLY the storages
marked `bootdevice`, the public network first (when resolved) followed by
the configured networks, and the requested public IPs (v4 then v6). -/
structure CreatePayload where
  name : String
  cores : Nat
  memory : Nat
  locationUUID : String
  availabilityZone : String
  labels : List String
  hardwareProfile : HWProfile
  isoImages : List String
  storages : List Storage
  networks : List Network
  publicIPs : List String
deriving DecidableEq

/-- Builds the create request body from the desired configuration;
`pubNet` is the public network UUID when one was resolved (the handler
resolves it exactly when at least one public IP is requested). -/
def buildCreatePayload (d : ServerConfig) (pubNet : Option String) : CreatePayload :=
  { name := d.name
    cores := d.cores
    memory := d.memory
    locationUUID := d.locationUUID
    availabilityZone := d.availabilityZone
    labels := d.labels
    hardwareProfile := hardwareProfileOf d.hardwareProfile
    isoImages := if d.isoimage = "" then [] else [d.isoimage]
    storages := d.storages.filter (fun s => s.bootdevice)
    networks :=
      (match pubNet with
       | some pn => [{ objectUUID := pn, bootdevice := false }]
       | none => []) ++ d.networks
    publicIPs :=
      (if d.ipv4 = "" then [] else [d.ipv4]) ++
      (if d.ipv6 = "" then [] else [d.ipv6]) }

/-- One external client call issued by the create handler, in issue
order. -/
inductive RemoteCall where
  | getIPVersion (ip : String)
  | getNetworkPublic
  | createServer (payload : CreatePayload)
  | linkStorage (server uuid : String) (bootdevice : Bool)
  | startServer (server : String)
deriving DecidableEq

/-- Oracle for the external client as seen by the create handler: the
result each call would return. `linkStorage`/`start` return `some e` for
a failure with message `e`, `none` for success. -/
structure CreateEnv where
  ipVersion : String → Nat
  publicNet : Except String String
  create : CreatePayload → Except String String
  linkStorage : String → String → Bool → Option String
  start : String → Option String

/-- The post-creation storage loop (lines 557-569): link each non-boot
storage in collection order, stopping at the first failing call.
Returns the issued calls and the first error, if any. -/
def linkNonBoot (env : CreateEnv) (sid : String) :
    List Storage → List RemoteCall × Option String
  | [] => ([], none)
  | s :: rest =>
    if s.bootdevice then linkNonBoot env sid rest
    else
      match env.linkStorage sid s.objectUUID s.bootdevice with
      | some e => ([RemoteCall.linkStorage sid s.objectUUID s.bootdevice], some e)
      | none =>
        let r := linkNonBoot env sid rest
        (RemoteCall.linkStorage sid s.objectUUID s.bootdevice :: r.1, r.2)

/-- The tail of the create handler from the `CreateServer` call on
(lines 546-577): issue the create call, then the non-boot storage links,
then — when power is desired — `StartServer`. The source discards the
return value of `StartServer` (line 574), so a start failure does not
change the handler's result; the call is still recorded in the trace. -/
def createAndFinish (env : CreateEnv) (d : ServerConfig) (tr : List RemoteCall)
    (p : CreatePayload) : List RemoteCall × Except String String :=
  match env.create p with
  | Except.error e =>
      (tr ++ [RemoteCall.createServer p],
       Except.error ("Error waiting for server (" ++ d.name ++ ") to be created: " ++ e))
  | Except.ok sid =>
      match (linkNonBoot env sid d.storages).2 with
      | some e =>
          (tr ++ [RemoteCall.createServer p] ++ (linkNonBoot env sid d.storages).1,
           Except.error e)
      | none =>
          if d.power then
            (tr ++ [RemoteCall.createServer p] ++ (linkNonBoot env sid d.storages).1 ++
              [RemoteCall.startServer sid],
             Except.ok sid)
          else
            (tr ++ [RemoteCall.createServer p] ++ (linkNonBoot env sid d.storages).1,
             Except.ok sid)

/-- The `GetIPVersion` validation call issued for a set address. -/
def ipCalls (ip : String) : List RemoteCall :=
  if ip = "" then [] else [RemoteCall.getIPVersion ip]

/-- `resourceGridscaleServerCreate` (lines 438-578) as a function from the
client oracle and the desired configuration to the ordered list of
issued client calls and the handler's result (the created server id on
success, the returned error otherwise; the final re-read is not
modelled). IP-family validation (lines 497-514) precedes the create
call; the public network is resolved exactly when a public IP is
requested (lines 523-533). -/
def serverCreate (env : CreateEnv) (d : ServerConfig) :
    List RemoteCall × Except String String :=
  if d.ipv4 ≠ "" ∧ env.ipVersion d.ipv4 ≠ 4 then
    (ipCalls d.ipv4,
     Except.error ("The IP address with UUID " ++ d.ipv4 ++ " is not version 4"))
  else if d.ipv6 ≠ "" ∧ env.ipVersion d.ipv6 ≠ 6 then
    (ipCalls d.ipv4 ++ ipCalls d.ipv6,
     Except.error ("The IP address with UUID " ++ d.ipv6 ++ " is not version 6"))
  else if d.ipv4 ≠ "" ∨ d.ipv6 ≠ "" then
    match env.publicNet with
    | Except.error e =>
        (ipCalls d.ipv4 ++ ipCalls d.ipv6 ++ [RemoteCall.getNetworkPublic],
         Except.error e)
    | Except.ok pn =>
        createAndFinish env d
          (ipCalls d.ipv4 ++ ipCalls d.ipv6 ++ [RemoteCall.getNetworkPublic])
          (buildCreatePayload d (some pn))
  else
    createAndFinish env d (ipCalls d.ipv4 ++ ipCalls d.ipv6) (buildCreatePayload d none)

/-! ### Concrete configurations used by the witnesses and counterexamples -/

/-- A minimal configuration every concrete scenario below is derived
from: no peripherals, non-legacy, power desired. -/
def baseConfig : ServerConfig :=
  { name := "srv"
    cores := 1
    memory := 1
    locationUUID := "loc"
    hardwareProfile := "default"
    availabilityZone := ""
    labels := []
    storages := []
    networks := []
    ipv4 := ""
    ipv6 := ""
    isoimage := ""
    power := true
    legacy := false }

/-- A client oracle on which every call succeeds. -/
def okEnv : CreateEnv :=
  { ipVersion := fun _ => 0
    publicNet := Except.ok "pubnet"
    create := fun _ => Except.ok "srv-id"
    linkStorage := fun _ _ _ => none
    start := fun _ => none }

/-! ### Membership structure of the update plan -/

/-- Membership in the full update plan splits over its eight segments. -/
theorem mem_buildUpdatePlan {pub : String} {old new : ServerConfig} {op : Op} :
    op ∈ buildUpdatePlan pub old new ↔
      op ∈ shutdownOps old new ∨ op = attrOp new ∨ op ∈ isoOps old new ∨
      op ∈ ipOps old new ∨ op ∈ publicNetOps pub old new ∨
      op ∈ networkOps old new ∨ op ∈ storageOps old new ∨ op ∈ powerOps new := by
  simp [buildUpdatePlan, List.mem_append, or_assoc]

/-- Elements of the shutdown segment are `Shutdown`. -/
theorem shape_shutdownOps {old new : ServerConfig} {op : Op}
    (h : op ∈ shutdownOps old new) : op = Op.Shutdown := by
  unfold shutdownOps at h
  split at h <;> simp_all

/-- Elements of the iso segment are `UnlinkIsoImage` operations. -/
theorem shape_isoOps {old new : ServerConfig} {op : Op}
    (h : op ∈ isoOps old new) : ∃ x, op = Op.UnlinkIsoImage x := by
  unfold isoOps at h
  split at h
  · split at h <;> simp_all
  · simp_all

/-- Elements of the public-network segment target the public network. -/
theorem shape_publicNetOps {pub : String} {old new : ServerConfig} {op : Op}
    (h : op ∈ publicNetOps pub old new) :
    op = Op.UnlinkNetwork pub ∨ op = Op.LinkNetwork pub false := by
  unfold publicNetOps at h
  rw [List.mem_append] at h
  rcases h with h | h <;> [skip; skip] <;> split at h <;> simp_all

/-- Elements of the network segment are network link/unlink operations. -/
theorem shape_networkOps {old new : ServerConfig} {op : Op}
    (h : op ∈ networkOps old new) :
    (∃ x, op = Op.UnlinkNetwork x) ∨ ∃ x b, op = Op.LinkNetwork x b := by
  unfold networkOps at h
  split at h
  · simp only [List.mem_append] at h
    rcases h with h | h <;> rcases List.mem_map.mp h with ⟨n, _, hn⟩
    · exact Or.inl ⟨n.objectUUID, hn.symm⟩
    · exact Or.inr ⟨n.objectUUID, n.bootdevice, hn.symm⟩
  · simp_all

/-- Elements of the storage segment are storage link/unlink operations. -/
theorem shape_storageOps {old new : ServerConfig} {op : Op}
    (h : op ∈ storageOps old new) :
    (∃ x, op = Op.UnlinkStorage x) ∨ ∃ x b, op = Op.LinkStorage x b := by
  unfold storageOps at h
  split at h
  · simp only [List.mem_append] at h
    rcases h with h | h <;> rcases List.mem_map.mp h with ⟨s, _, hs⟩
    · exact Or.inl ⟨s.objectUUID, hs.symm⟩
    · exact Or.inr ⟨s.objectUUID, s.bootdevice, hs.symm⟩
  · simp_all

/-- Elements of the trailing power segment are `Start` or `Shutdown`. -/
theorem shape_powerOps {new : ServerConfig} {op : Op}
    (h : op ∈ powerOps new) : op = Op.Start ∨ op = Op.Shutdown := by
  unfold powerOps at h
  rw [List.mem_singleton] at h
  subst h
  split <;> simp

/-- Membership in one IP family's block. -/
theorem mem_ipFamilyOps {o n : String} {op : Op} :
    op ∈ ipFamilyOps o n ↔
      o ≠ n ∧ ((n = "" ∧ op = Op.UnlinkIP o) ∨ (n ≠ "" ∧ op = Op.LinkIP n)) := by
  by_cases h1 : o = n
  · simp [ipFamilyOps, h1]
  · by_cases h2 : n = "" <;> simp [ipFamilyOps, h1, h2]

/-- Membership in the public-network segment. -/
theorem mem_publicNetOps {pub : String} {old new : ServerConfig} {op : Op} :
    op ∈ publicNetOps pub old new ↔
      (((old.ipv6 ≠ new.ipv6 ∨ old.ipv4 ≠ new.ipv4) ∧ new.ipv6 = "" ∧ new.ipv4 = "") ∧
        op = Op.UnlinkNetwork pub) ∨
      (((old.ipv6 ≠ new.ipv6 ∨ old.ipv4 ≠ new.ipv4) ∧ needsPublicNetwork old new = true) ∧
        op = Op.LinkNetwork pub false) := by
  by_cases h1 : (old.ipv6 ≠ new.ipv6 ∨ old.ipv4 ≠ new.ipv4) ∧ new.ipv6 = "" ∧ new.ipv4 = "" <;>
    by_cases h2 : (old.ipv6 ≠ new.ipv6 ∨ old.ipv4 ≠ new.ipv4) ∧
      needsPublicNetwork old new = true <;>
    simp [publicNetOps, h1, h2]

/-- Membership in the network segment. -/
theorem mem_networkOps {old new : ServerConfig} {op : Op} :
    op ∈ networkOps old new ↔
      old.networks ≠ new.networks ∧
        ((∃ nw ∈ old.networks, nw.objectUUID ≠ "" ∧ op = Op.UnlinkNetwork nw.objectUUID) ∨
         (∃ nw ∈ new.networks,
            nw.objectUUID ≠ "" ∧ op = Op.LinkNetwork nw.objectUUID nw.bootdevice)) := by
  by_cases h : old.networks = new.networks
  · simp [networkOps, h]
  · unfold networkOps
    rw [if_pos h]
    simp only [List.mem_append, List.mem_map, List.mem_filter, decide_eq_true_eq, ne_eq,
      h, not_false_iff, true_and]
    constructor
    · rintro (⟨n, ⟨hn, hu⟩, he⟩ | ⟨n, ⟨hn, hu⟩, he⟩)
      · exact Or.inl ⟨n, hn, hu, he.symm⟩
      · exact Or.inr ⟨n, hn, hu, he.symm⟩
    · rintro (⟨n, hn, hu, he⟩ | ⟨n, hn, hu, he⟩)
      · exact Or.inl ⟨n, ⟨hn, hu⟩, he.symm⟩
      · exact Or.inr ⟨n, ⟨hn, hu⟩, he.symm⟩

/-- Membership in the storage segment. -/
theorem mem_storageOps {old new : ServerConfig} {op : Op} :
    op ∈ storageOps old new ↔
      old.storages ≠ new.storages ∧
        ((∃ s ∈ old.storages,
            (∀ t ∈ new.storages, t.objectUUID ≠ s.objectUUID) ∧
            op = Op.UnlinkStorage s.objectUUID) ∨
         (∃ s ∈ new.storages,
            (∀ t ∈ old.storages, t.objectUUID ≠ s.objectUUID) ∧
            op = Op.LinkStorage s.objectUUID s.bootdevice)) := by
  by_cases h : old.storages = new.storages
  · simp [storageOps, h]
  · unfold storageOps
    rw [if_pos h]
    simp only [List.mem_append, List.mem_map, List.mem_filter, Bool.not_eq_true',
      List.any_eq_false, decide_eq_true_eq, ne_eq, h, not_false_iff, true_and,
      decide_eq_false_iff_not]
    constructor
    · rintro (⟨s, ⟨hs, hu⟩, he⟩ | ⟨s, ⟨hs, hu⟩, he⟩)
      · exact Or.inl ⟨s, hs, hu, he.symm⟩
      · exact Or.inr ⟨s, hs, hu, he.symm⟩
    · rintro (⟨s, hs, hu, he⟩ | ⟨s, hs, hu, he⟩)
      · exact Or.inl ⟨s, ⟨hs, hu⟩, he.symm⟩
      · exact Or.inr ⟨s, ⟨hs, hu⟩, he.symm⟩

/-! ### The claims -/

/-- C5: the power-requirement classification is true exactly when one of
the clauses holds — cores decrease, memory decrease, legacy profile with
a cores or memory change (increases included), or any change of ipv4,
ipv6, the storage set or the network set; in particular decreasing cores
from 4 to 2 on a non-legacy profile forces a cycle and increasing memory
from 4 to 8 does not. -/
theorem C5_power_classifier :
    (∀ old new : ServerConfig,
      shutdownRequired old new = true ↔
        (new.cores < old.cores ∨ new.memory < old.memory ∨
         (old.legacy = true ∧ (old.cores ≠ new.cores ∨ old.memory ≠ new.memory)) ∨
         old.ipv4 ≠ new.ipv4 ∨ old.ipv6 ≠ new.ipv6 ∨
         old.storages ≠ new.storages ∨ old.networks ≠ new.networks)) ∧
    shutdownRequired { baseConfig with cores := 4 } { baseConfig with cores := 2 } = true ∧
    shutdownRequired { baseConfig with memory := 4 } { baseConfig with memory := 8 } = false := by
  refine ⟨fun old new => ?_, by decide, by decide⟩
  simp only [shutdownRequired, Bool.or_eq_true, Bool.and_eq_true, decide_eq_true_eq]
  have h1 : new.cores < old.cores → old.cores ≠ new.cores := fun h => Nat.ne_of_gt h
  have h2 : new.memory < old.memory → old.memory ≠ new.memory := fun h => Nat.ne_of_gt h
  tauto

/-- C7 fails on the code: even when observed and desired state are
identical, the update handler still issues the trailing power-state call
— here a `Start`, since power is desired in this configuration. -/
theorem C7_counterexample :
    Op.Start ∈ buildUpdatePlan "pubnet" baseConfig baseConfig := by decide

/-- C7 amended: for identical observed and desired state the plan
contains no link/unlink operation and no leading shutdown — exactly the
no-op attribute update followed by the trailing power-state call
(`Start` when power is desired, `Shutdown` otherwise). -/
theorem C7_amended (pub : String) (c : ServerConfig) :
    buildUpdatePlan pub c c =
      [Op.UpdateAttributes c.name c.availabilityZone c.labels c.cores c.memory,
       if c.power then Op.Start else Op.Shutdown] := by
  simp [buildUpdatePlan, shutdownOps, shutdownRequired, attrOp, isoOps, ipOps,
        ipFamilyOps, publicNetOps, networkOps, storageOps, powerOps]

/-- C2: at the failing input — observed iso image `iso-a`, desired iso
image `iso-b`, everything else unchanged — the update handler issues
`UnlinkIsoImage` on the NEW image and never links it nor unlinks the old
one: the whole plan is the attribute update, `UnlinkIsoImage "iso-b"`,
and the trailing start. -/
theorem C2_iso_bug_eval :
    buildUpdatePlan "pubnet"
        { baseConfig with isoimage := "iso-a" } { baseConfig with isoimage := "iso-b" } =
      [Op.UpdateAttributes "srv" "" [] 1 1, Op.UnlinkIsoImage "iso-b", Op.Start] := by
  decide

/-- Observed state for the C3 scenario: v4 address `ip-a` attached. -/
def c3old : ServerConfig := { baseConfig with ipv4 := "ip-a" }

/-- Desired state for the C3 scenario: v4 address replaced by `ip-b`. -/
def c3new : ServerConfig := { baseConfig with ipv4 := "ip-b" }

/-- C3 fails on the code: replacing the v4 address `ip-a` by `ip-b`
yields a plan that links the new address but never unlinks the old one. -/
theorem C3_counterexample :
    Op.LinkIP "ip-b" ∈ buildUpdatePlan "pubnet" c3old c3new ∧
    Op.UnlinkIP "ip-a" ∉ buildUpdatePlan "pubnet" c3old c3new := by decide

/-- C3 amended: when a family's attachment changed, the handler unlinks
the old address only when no new address is desired; when a new address
is desired, only a link of the new address is emitted and the old
address is never unlinked. Stated for the v4 family (the v6 block at
lines 667-680 is identical); the last hypothesis keeps the v6 block from
coincidentally naming the old v4 address. -/
theorem C3_amended (pub : String) (old new : ServerConfig)
    (hch : old.ipv4 ≠ new.ipv4) (hn : new.ipv4 ≠ "") (hd : old.ipv4 ≠ old.ipv6) :
    Op.LinkIP new.ipv4 ∈ buildUpdatePlan pub old new ∧
    Op.UnlinkIP old.ipv4 ∉ buildUpdatePlan pub old new := by
  constructor
  · refine mem_buildUpdatePlan.mpr (Or.inr (Or.inr (Or.inr (Or.inl ?_))))
    refine List.mem_append.mpr (Or.inl ?_)
    exact mem_ipFamilyOps.mpr ⟨hch, Or.inr ⟨hn, rfl⟩⟩
  · intro h
    rcases mem_buildUpdatePlan.mp h with h | h | h | h | h | h | h | h
    · exact absurd (shape_shutdownOps h) (by simp)
    · simp [attrOp] at h
    · rcases shape_isoOps h with ⟨x, hx⟩
      exact absurd hx (by simp)
    · rcases List.mem_append.mp h with h | h
      · rcases (mem_ipFamilyOps.mp h).2 with ⟨he, _⟩ | ⟨_, he⟩
        · exact hn he
        · exact absurd he (by simp)
      · rcases (mem_ipFamilyOps.mp h).2 with ⟨_, he⟩ | ⟨_, he⟩
        · exact hd (Op.UnlinkIP.inj he)
        · exact absurd he (by simp)
    · rcases shape_publicNetOps h with hx | hx <;> exact absurd hx (by simp)
    · rcases shape_networkOps h with ⟨x, hx⟩ | ⟨x, b, hx⟩ <;> exact absurd hx (by simp)
    · rcases shape_storageOps h with ⟨x, hx⟩ | ⟨x, b, hx⟩ <;> exact absurd hx (by simp)
    · rcases shape_powerOps h with hx | hx <;> exact absurd hx (by simp)

/-- C3 witness: the amended statement at the concrete replacement
scenario. -/
theorem C3_witness :
    Op.LinkIP "ip-b" ∈ buildUpdatePlan "pub-w3" c3old c3new ∧
    Op.UnlinkIP "ip-a" ∉ buildUpdatePlan "pub-w3" c3old c3new :=
  C3_amended "pub-w3" c3old c3new (by decide) (by decide) (by decide)

/-- A plain network attachment named `net-a`. -/
def netA : Network := { objectUUID := "net-a", bootdevice := false }

/-- A plain network attachment named `net-b`. -/
def netB : Network := { objectUUID := "net-b", bootdevice := false }

/-- A plain network attachment named `net-c`. -/
def netC : Network := { objectUUID := "net-c", bootdevice := false }

/-- Observed state for the C4 scenario: networks `net-a`, `net-b`. -/
def c4old : ServerConfig := { baseConfig with networks := [netA, netB] }

/-- Desired state for the C4 scenario: networks `net-a`, `net-c`. -/
def c4new : ServerConfig := { baseConfig with networks := [netA, netC] }

/-- C4 fails on the code: when the network collection changed, the
handler unlinks and relinks every network — including `net-a`, which is
present in both the observed and the desired collection. -/
theorem C4_counterexample :
    Op.UnlinkNetwork "net-a" ∈ buildUpdatePlan "pubnet" c4old c4new ∧
    Op.LinkNetwork "net-a" false ∈ buildUpdatePlan "pubnet" c4old c4new := by decide

/-- C4 amended: a network present in both collections is left untouched
only when the network collection is unchanged as a whole; whenever it
changed, every observed network with a non-empty UUID is unlinked and
every desired one linked — shared attachments included. -/
theorem C4_amended (pub : String) (old new : ServerConfig) (n : Network)
    (h1 : n ∈ old.networks) (h2 : n ∈ new.networks)
    (hch : old.networks ≠ new.networks) (hu : n.objectUUID ≠ "") :
    Op.UnlinkNetwork n.objectUUID ∈ buildUpdatePlan pub old new ∧
    Op.LinkNetwork n.objectUUID n.bootdevice ∈ buildUpdatePlan pub old new := by
  constructor
  · refine mem_buildUpdatePlan.mpr (Or.inr (Or.inr (Or.inr (Or.inr (Or.inr (Or.inl ?_))))))
    exact mem_networkOps.mpr ⟨hch, Or.inl ⟨n, h1, hu, rfl⟩⟩
  · refine mem_buildUpdatePlan.mpr (Or.inr (Or.inr (Or.inr (Or.inr (Or.inr (Or.inl ?_))))))
    exact mem_networkOps.mpr ⟨hch, Or.inr ⟨n, h2, hu, rfl⟩⟩

/-- C4 witness: the amended statement at the concrete scenario. -/
theorem C4_witness :
    Op.UnlinkNetwork "net-a" ∈ buildUpdatePlan "pub-w4" c4old c4new ∧
    Op.LinkNetwork "net-a" false ∈ buildUpdatePlan "pub-w4" c4old c4new :=
  C4_amended "pub-w4" c4old c4new netA (by decide) (by decide) (by decide) (by decide)

/-- Observed state for the C6 scenario: v4 address `ip-a`, no v6. -/
def c6old : ServerConfig := { baseConfig with ipv4 := "ip-a", ipv6 := "" }

/-- Desired state for the C6 scenario: v4 unchanged, v6 `ip-b` added. -/
def c6new : ServerConfig := { baseConfig with ipv4 := "ip-a", ipv6 := "ip-b" }

/-- C6 fails on the code: adding a v6 address while the v4 address
`ip-a` survives unchanged DOES emit a `LinkNetwork` against the public
network, although the union of addresses was already non-empty before
the change. -/
theorem C6_counterexample :
    Op.LinkNetwork "pubnet" false ∈ buildUpdatePlan "pubnet" c6old c6new := by decide

/-- The tracked `needsPublicNetwork` flag holds exactly when no changed
family previously had an address. -/
theorem needsPublicNetwork_iff {old new : ServerConfig} :
    needsPublicNetwork old new = true ↔
      ¬((old.ipv4 ≠ new.ipv4 ∧ old.ipv4 ≠ "") ∨ (old.ipv6 ≠ new.ipv6 ∧ old.ipv6 ≠ "")) := by
  simp [needsPublicNetwork]
  tauto

/-- C6 amended: `UnlinkNetwork` against the public network is emitted
exactly when some family changed and both desired addresses are empty;
`LinkNetwork` against it exactly when some family changed and no changed
family previously had an address. A surviving unchanged address in the
other family therefore does NOT suppress the auto-link; replacing v4
while v6 is and was unset still emits neither operation. The hypotheses
keep the configured networks apart from the public network. -/
theorem C6_amended (pub : String) (old new : ServerConfig)
    (h1 : ∀ n ∈ old.networks, n.objectUUID ≠ pub)
    (h2 : ∀ n ∈ new.networks, n.objectUUID ≠ pub) :
    (Op.UnlinkNetwork pub ∈ buildUpdatePlan pub old new ↔
      (old.ipv6 ≠ new.ipv6 ∨ old.ipv4 ≠ new.ipv4) ∧ new.ipv6 = "" ∧ new.ipv4 = "") ∧
    ((∃ b, Op.LinkNetwork pub b ∈ buildUpdatePlan pub old new) ↔
      (old.ipv6 ≠ new.ipv6 ∨ old.ipv4 ≠ new.ipv4) ∧
        ¬((old.ipv4 ≠ new.ipv4 ∧ old.ipv4 ≠ "") ∨ (old.ipv6 ≠ new.ipv6 ∧ old.ipv6 ≠ ""))) := by
  constructor
  · constructor
    · intro h
      rcases mem_buildUpdatePlan.mp h with h | h | h | h | h | h | h | h
      · exact absurd (shape_shutdownOps h) (by simp)
      · simp [attrOp] at h
      · rcases shape_isoOps h with ⟨x, hx⟩
        exact absurd hx (by simp)
      · rcases List.mem_append.mp h with h | h <;>
          rcases (mem_ipFamilyOps.mp h).2 with ⟨_, he⟩ | ⟨_, he⟩ <;> exact absurd he (by simp)
      · rcases mem_publicNetOps.mp h with ⟨hc, _⟩ | ⟨_, he⟩
        · exact hc
        · exact absurd he (by simp)
      · rcases (mem_networkOps.mp h).2 with ⟨nw, hnw, _, he⟩ | ⟨nw, hnw, _, he⟩
        · exact absurd (Op.UnlinkNetwork.inj he).symm (h1 nw hnw)
        · exact absurd he (by simp)
      · rcases shape_storageOps h with ⟨x, hx⟩ | ⟨x, b, hx⟩ <;> exact absurd hx (by simp)
      · rcases shape_powerOps h with hx | hx <;> exact absurd hx (by simp)
    · intro hc
      refine mem_buildUpdatePlan.mpr (Or.inr (Or.inr (Or.inr (Or.inr (Or.inl ?_)))))
      exact mem_publicNetOps.mpr (Or.inl ⟨hc, rfl⟩)
  · constructor
    · rintro ⟨b, h⟩
      rcases mem_buildUpdatePlan.mp h with h | h | h | h | h | h | h | h
      · exact absurd (shape_shutdownOps h) (by simp)
      · simp [attrOp] at h
      · rcases shape_isoOps h with ⟨x, hx⟩
        exact absurd hx (by simp)
      · rcases List.mem_append.mp h with h | h <;>
          rcases (mem_ipFamilyOps.mp h).2 with ⟨_, he⟩ | ⟨_, he⟩ <;> exact absurd he (by simp)
      · rcases mem_publicNetOps.mp h with ⟨_, he⟩ | ⟨hc, _⟩
        · exact absurd he (by simp)
        · exact ⟨hc.1, needsPublicNetwork_iff.mp hc.2⟩
      · rcases (mem_networkOps.mp h).2 with ⟨nw, hnw, _, he⟩ | ⟨nw, hnw, _, he⟩
        · exact absurd he (by simp)
        · exact absurd (Op.LinkNetwork.inj he).1.symm (h2 nw hnw)
      · rcases shape_storageOps h with ⟨x, hx⟩ | ⟨x, b', hx⟩ <;> exact absurd hx (by simp)
      · rcases shape_powerOps h with hx | hx <;> exact absurd hx (by simp)
    · rintro ⟨hch, hno⟩
      refine ⟨false, mem_buildUpdatePlan.mpr (Or.inr (Or.inr (Or.inr (Or.inr (Or.inl ?_)))))⟩
      exact mem_publicNetOps.mpr (Or.inr ⟨⟨hch, needsPublicNetwork_iff.mpr hno⟩, rfl⟩)

/-- C6 witness: the amended characterization at the concrete scenario —
the surviving unchanged v4 address does not suppress the public-network
link when a v6 address is added. -/
theorem C6_witness :
    ∃ b, Op.LinkNetwork "pub-w6" b ∈ buildUpdatePlan "pub-w6" c6old c6new := by
  have h := (C6_amended "pub-w6" c6old c6new
    (by intro n hn; simp [c6old, baseConfig] at hn)
    (by intro n hn; simp [c6new, baseConfig] at hn)).2
  exact h.mpr (by decide)

/-- Selects storage link/unlink operations. -/
def isStorageOp : Op → Bool
  | Op.UnlinkStorage _ => true
  | Op.LinkStorage _ _ => true
  | _ => false

/-- The shutdown segment contributes no storage operation. -/
theorem filter_storage_shutdownOps (old new : ServerConfig) :
    (shutdownOps old new).filter isStorageOp = [] := by
  unfold shutdownOps
  split <;> rfl

/-- The iso segment contributes no storage operation. -/
theorem filter_storage_isoOps (old new : ServerConfig) :
    (isoOps old new).filter isStorageOp = [] := by
  unfold isoOps
  split
  · split <;> rfl
  · rfl

/-- An IP family block contributes no storage operation. -/
theorem filter_storage_ipFamilyOps (o n : String) :
    (ipFamilyOps o n).filter isStorageOp = [] := by
  unfold ipFamilyOps
  split
  · split <;> rfl
  · rfl

/-- The public-network segment contributes no storage operation. -/
theorem filter_storage_publicNetOps (pub : String) (old new : ServerConfig) :
    (publicNetOps pub old new).filter isStorageOp = [] := by
  unfold publicNetOps
  rw [List.filter_append]
  split <;> split <;> rfl

/-- A list of `UnlinkNetwork` operations has no storage operation. -/
theorem filter_storage_map_unlinkNetwork (l : List Network) :
    (l.map (fun n => Op.UnlinkNetwork n.objectUUID)).filter isStorageOp = [] := by
  induction l with
  | nil => rfl
  | cons a t ih => simp [isStorageOp, ih]

/-- A list of `LinkNetwork` operations has no storage operation. -/
theorem filter_storage_map_linkNetwork (l : List Network) :
    (l.map (fun n => Op.LinkNetwork n.objectUUID n.bootdevice)).filter isStorageOp = [] := by
  induction l with
  | nil => rfl
  | cons a t ih => simp [isStorageOp, ih]

/-- The network segment contributes no storage operation. -/
theorem filter_storage_networkOps (old new : ServerConfig) :
    (networkOps old new).filter isStorageOp = [] := by
  unfold networkOps
  split
  · rw [List.filter_append, filter_storage_map_unlinkNetwork, filter_storage_map_linkNetwork]
    rfl
  · rfl

/-- The trailing power segment contributes no storage operation. -/
theorem filter_storage_powerOps (new : ServerConfig) :
    (powerOps new).filter isStorageOp = [] := by
  unfold powerOps
  split <;> rfl

/-- Every element of an `UnlinkStorage` map survives the storage filter. -/
theorem filter_storage_map_unlinkStorage (l : List Storage) :
    (l.map (fun s => Op.UnlinkStorage s.objectUUID)).filter isStorageOp =
      l.map (fun s => Op.UnlinkStorage s.objectUUID) := by
  induction l with
  | nil => rfl
  | cons a t ih => simp [isStorageOp, ih]

/-- Every element of a `LinkStorage` map survives the storage filter. -/
theorem filter_storage_map_linkStorage (l : List Storage) :
    (l.map (fun s => Op.LinkStorage s.objectUUID s.bootdevice)).filter isStorageOp =
      l.map (fun s => Op.LinkStorage s.objectUUID s.bootdevice) := by
  induction l with
  | nil => rfl
  | cons a t ih => simp [isStorageOp, ih]

/-- Diffing a storage list against itself removes everything. -/
theorem self_storage_diff (l : List Storage) :
    l.filter (fun s => !(l.any (fun t => t.objectUUID = s.objectUUID))) = [] := by
  refine List.filter_eq_nil_iff.mpr fun a ha => ?_
  simp only [Bool.not_eq_true', List.any_eq_false, decide_eq_false_iff_not, not_forall]
  exact ⟨a, ha, by simp⟩

/-- The storage operations of an update plan are exactly the storage
segment. -/
theorem filter_storage_plan (pub : String) (old new : ServerConfig) :
    (buildUpdatePlan pub old new).filter isStorageOp = storageOps old new := by
  unfold buildUpdatePlan
  simp only [List.filter_append, filter_storage_shutdownOps, filter_storage_isoOps,
    filter_storage_publicNetOps, filter_storage_networkOps, filter_storage_powerOps]
  unfold ipOps
  rw [List.filter_append, filter_storage_ipFamilyOps, filter_storage_ipFamilyOps]
  have hattr : ([attrOp new]).filter isStorageOp = [] := rfl
  rw [hattr]
  have hst : (storageOps old new).filter isStorageOp = storageOps old new := by
    unfold storageOps
    split
    · rw [List.filter_append, filter_storage_map_unlinkStorage, filter_storage_map_linkStorage]
    · rfl
  simp [hst]

/-- C10: the storage operations of an update plan are exactly one unlink
per observed storage whose UUID is absent from the desired collection,
followed by one link per desired storage whose UUID is absent from the
observed collection, in collection order; and a storage whose UUID
occurs on both sides is never unlinked nor linked. -/
theorem C10_storage_diff (pub : String) (old new : ServerConfig) :
    (buildUpdatePlan pub old new).filter isStorageOp =
      (old.storages.filter
        (fun s => !(new.storages.any (fun t => t.objectUUID = s.objectUUID)))).map
        (fun s => Op.UnlinkStorage s.objectUUID) ++
      (new.storages.filter
        (fun s => !(old.storages.any (fun t => t.objectUUID = s.objectUUID)))).map
        (fun s => Op.LinkStorage s.objectUUID s.bootdevice) ∧
    ∀ s ∈ old.storages, (∃ t ∈ new.storages, t.objectUUID = s.objectUUID) →
      Op.UnlinkStorage s.objectUUID ∉ buildUpdatePlan pub old new ∧
      ∀ b, Op.LinkStorage s.objectUUID b ∉ buildUpdatePlan pub old new := by
  constructor
  · rw [filter_storage_plan]
    unfold storageOps
    split
    · rfl
    · rename_i h
      rw [not_not] at h
      rw [h, self_storage_diff]
      rfl
  · intro s hs ht
    rcases ht with ⟨t, htm, htu⟩
    constructor
    · intro h
      have hmem : Op.UnlinkStorage s.objectUUID ∈ storageOps old new := by
        rw [← filter_storage_plan pub old new]
        exact List.mem_filter.mpr ⟨h, rfl⟩
      rcases (mem_storageOps.mp hmem).2 with ⟨u, hu, hnone, he⟩ | ⟨u, _, _, he⟩
      · exact hnone t htm ((Op.UnlinkStorage.inj he) ▸ htu)
      · exact absurd he (by simp)
    · intro b h
      have hmem : Op.LinkStorage s.objectUUID b ∈ storageOps old new := by
        rw [← filter_storage_plan pub old new]
        exact List.mem_filter.mpr ⟨h, rfl⟩
      rcases (mem_storageOps.mp hmem).2 with ⟨u, _, _, he⟩ | ⟨u, hu, hnone, he⟩
      · exact absurd he (by simp)
      · exact hnone s hs (Op.LinkStorage.inj he).1

/-- A plain storage attachment named `st-a`. -/
def stA : Storage := { objectUUID := "st-a", bootdevice := false }

/-- A plain storage attachment named `st-b`. -/
def stB : Storage := { objectUUID := "st-b", bootdevice := false }

/-- A plain storage attachment named `st-c`. -/
def stC : Storage := { objectUUID := "st-c", bootdevice := false }

/-- Observed state for the C10 scenario: storages `st-a`, `st-b`. -/
def c10old : ServerConfig := { baseConfig with storages := [stA, stB] }

/-- Desired state for the C10 scenario: storages `st-b`, `st-c`. -/
def c10new : ServerConfig := { baseConfig with storages := [stB, stC] }

/-- C10 witness: for old `{st-a, st-b}` and new `{st-b, st-c}` the shared
storage `st-b` is never unlinked. -/
theorem C10_witness :
    Op.UnlinkStorage "st-b" ∉ buildUpdatePlan "pub-w10" c10old c10new :=
  ((C10_storage_diff "pub-w10" c10old c10new).2 stB (by decide) ⟨stB, by decide, rfl⟩).1

/-- A boot storage named `st-1`. -/
def bootS1 : Storage := { objectUUID := "st-1", bootdevice := true }

/-- A second boot storage named `st-2`, for the duplicate-boot scenario. -/
def bootS2 : Storage := { objectUUID := "st-2", bootdevice := true }

/-- Desired spec for the C1 scenario: TWO storages marked as boot device,
no IPs, power off. -/
def c1spec : ServerConfig := { baseConfig with storages := [bootS1, bootS2], power := false }

/-- C1 fails on the code: for a desired spec with two boot-marked
storages the create handler performs no local validation — it issues the
remote create call with BOTH boot storages in the payload and returns
success when the remote call succeeds. -/
theorem C1_counterexample :
    serverCreate okEnv c1spec =
      ([RemoteCall.createServer (buildCreatePayload c1spec none)], Except.ok "srv-id") ∧
    (buildCreatePayload c1spec none).storages = [bootS1, bootS2] := ⟨rfl, rfl⟩

/-- The create call is always issued by the tail of the create handler,
whatever the call results are. -/
theorem createServer_mem_createAndFinish (env : CreateEnv) (d : ServerConfig)
    (tr : List RemoteCall) (p : CreatePayload) :
    RemoteCall.createServer p ∈ (createAndFinish env d tr p).1 := by
  unfold createAndFinish
  cases hc : env.create p with
  | error e => simp
  | ok sid =>
    cases hl : (linkNonBoot env sid d.storages).2 with
    | none => by_cases hb : d.power <;> simp [hl, hb]
    | some e => simp [hl]

/-- C1 amended: the create handler performs no local validation of the
boot-device count. Whenever the IP-family checks pass and the public
network resolves when needed, the remote create call is issued, and its
payload contains exactly the storages marked as boot device — duplicates
included; the single-boot-device invariant is left to the remote API's
error, as the source comment on lines 481-482 states. -/
theorem C1_amended (env : CreateEnv) (s : ServerConfig)
    (h4 : s.ipv4 ≠ "" → env.ipVersion s.ipv4 = 4)
    (h6 : s.ipv6 ≠ "" → env.ipVersion s.ipv6 = 6)
    (hp : s.ipv4 ≠ "" ∨ s.ipv6 ≠ "" → ∃ pn, env.publicNet = Except.ok pn) :
    ∃ p, RemoteCall.createServer p ∈ (serverCreate env s).1 ∧
      p.storages = s.storages.filter (fun st => st.bootdevice) := by
  unfold serverCreate
  rw [if_neg (fun hx => hx.2 (h4 hx.1)), if_neg (fun hx => hx.2 (h6 hx.1))]
  by_cases hip : s.ipv4 ≠ "" ∨ s.ipv6 ≠ ""
  · obtain ⟨pn, hpn⟩ := hp hip
    rw [if_pos hip, hpn]
    exact ⟨buildCreatePayload s (some pn),
      createServer_mem_createAndFinish env s _ _, rfl⟩
  · rw [if_neg hip]
    exact ⟨buildCreatePayload s none,
      createServer_mem_createAndFinish env s _ _, rfl⟩

/-- C1 witness: the amended statement at the duplicate-boot spec. -/
theorem C1_witness :
    ∃ p, RemoteCall.createServer p ∈ (serverCreate okEnv c1spec).1 ∧
      p.storages = c1spec.storages.filter (fun st => st.bootdevice) :=
  C1_amended okEnv c1spec (fun h => absurd rfl h) (fun h => absurd rfl h)
    (fun h => by rcases h with h | h <;> exact absurd rfl h)

/-- A client oracle on which everything succeeds except the trailing
`StartServer` call. -/
def startFailsEnv : CreateEnv :=
  { ipVersion := fun _ => 0
    publicNet := Except.ok "pubnet"
    create := fun _ => Except.ok "srv-id"
    linkStorage := fun _ _ _ => none
    start := fun _ => some "start failed" }

/-- C8: at the failing input — a create with power desired whose trailing
`StartServer` call fails — the handler still issues the start call and
returns success anyway: the source discards the `StartServer` error
(line 574), so this one failing operation's error is silently swallowed,
contrary to the claim. -/
theorem C8_start_error_swallowed :
    (serverCreate startFailsEnv baseConfig).1 =
      [RemoteCall.createServer (buildCreatePayload baseConfig none),
       RemoteCall.startServer "srv-id"] ∧
    (serverCreate startFailsEnv baseConfig).2 = Except.ok "srv-id" ∧
    startFailsEnv.start "srv-id" = some "start failed" := ⟨rfl, rfl, rfl⟩

/-- Desired spec for the C9 scenario: a boot storage `st-1` followed by
two non-boot storages `st-2`, `st-3`. -/
def c9spec : ServerConfig :=
  { baseConfig with storages :=
      [{ objectUUID := "st-1", bootdevice := true },
       { objectUUID := "st-2", bootdevice := false },
       { objectUUID := "st-3", bootdevice := false }] }

/-- C9: for a desired spec whose storages are boot `u1` followed by
non-boot `u2` and `u3` (with no public IPs requested), the create
payload contains only the boot storage; when the create call and the
links succeed, the handler issues the create call, then `linkStorage u2`
and `linkStorage u3` in collection order, and a `startServer` follows
exactly when power is desired; and when the create call fails, no link
is issued at all. -/
theorem C9_creation_ordering (env : CreateEnv) (s : ServerConfig)
    (sid u1 u2 u3 : String)
    (hst : s.storages = [⟨u1, true⟩, ⟨u2, false⟩, ⟨u3, false⟩])
    (h4 : s.ipv4 = "") (h6 : s.ipv6 = "")
    (hc : ∀ p, env.create p = Except.ok sid)
    (hl : ∀ a b c, env.linkStorage a b c = none) :
    (buildCreatePayload s none).storages = [⟨u1, true⟩] ∧
    serverCreate env s =
      ([RemoteCall.createServer (buildCreatePayload s none),
        RemoteCall.linkStorage sid u2 false,
        RemoteCall.linkStorage sid u3 false] ++
        (if s.power then [RemoteCall.startServer sid] else []),
       Except.ok sid) ∧
    (∀ env2 : CreateEnv, ∀ e : String, (∀ p, env2.create p = Except.error e) →
      ∀ c ∈ (serverCreate env2 s).1, ∀ i u b, c ≠ RemoteCall.linkStorage i u b) := by
  refine ⟨by simp [buildCreatePayload, hst], ?_, ?_⟩
  · unfold serverCreate
    rw [if_neg (fun hx => hx.1 h4), if_neg (fun hx => hx.1 h6),
        if_neg (fun hx => by rcases hx with hx | hx; exacts [hx h4, hx h6])]
    unfold createAndFinish
    rw [hc]
    have hlink : linkNonBoot env sid s.storages =
        ([RemoteCall.linkStorage sid u2 false, RemoteCall.linkStorage sid u3 false],
         none) := by
      simp [hst, linkNonBoot, hl]
    by_cases hp : s.power <;> simp [hlink, hp, ipCalls, h4, h6]
  · intro env2 e hce c hmem i u b
    unfold serverCreate at hmem
    rw [if_neg (fun hx => hx.1 h4), if_neg (fun hx => hx.1 h6),
        if_neg (fun hx => by rcases hx with hx | hx; exacts [hx h4, hx h6])] at hmem
    unfold createAndFinish at hmem
    rw [hce] at hmem
    simp [ipCalls, h4, h6] at hmem
    simp [hmem]

/-- C9 witness: the creation ordering at the concrete three-storage spec
with the all-success oracle. -/
theorem C9_witness :
    (buildCreatePayload c9spec none).storages = [⟨"st-1", true⟩] ∧
    serverCreate okEnv c9spec =
      ([RemoteCall.createServer (buildCreatePayload c9spec none),
        RemoteCall.linkStorage "srv-id" "st-2" false,
        RemoteCall.linkStorage "srv-id" "st-3" false] ++
        (if c9spec.power then [RemoteCall.startServer "srv-id"] else []),
       Except.ok "srv-id") :=
  ⟨(C9_creation_ordering okEnv c9spec "srv-id" "st-1" "st-2" "st-3" rfl rfl rfl
      (fun _ => rfl) (fun _ _ _ => rfl)).1,
   (C9_creation_ordering okEnv c9spec "srv-id" "st-1" "st-2" "st-3" rfl rfl rfl
      (fun _ => rfl) (fun _ _ _ => rfl)).2.1⟩

end Gridscale
